import Mathlib

/-!
# Verification of `failover.py` (do-failover)

A shallow embedding of the failover controller in `src/failover.py`:
the health probe (`checkService` / `_get`), the recursive dictionary
lookup (`_item`), the DigitalOcean ownership client (`hasFloatingIP`,
`takeFloatingIP`, `getMetadata` / `getDropletID`), the startup
configuration logic and per-cycle state machine of `main()`, and the
`Watchdog` thread, together with theorems about their behaviour.

Network and environment effects are passed in explicitly: HTTP requests
become oracle functions, the process environment becomes a record of
optional strings, and the watchdog thread becomes a deterministic
interpreter over an explicit schedule of interleaved events.
-/

namespace Failover

/-- Python exceptions raised by the program (the loop in `main()` has no
handler, so any of these propagates and ends the run). -/
inductive PyErr
  | typeError
  | keyError
  | urlopenFailed
  | non200Status (code : Nat)
  | jsonError
  | acquireFailed (code : Nat)
  | missingApiKey
  | missingFloatingIP
  | missingCheck
  | missingMain
  | unsupportedMode
  deriving DecidableEq, Repr

/-- Python values produced by `json.loads` and `os.environ` as the
program uses them (floats never occur in the fields the program reads). -/
inductive PyVal
  | none
  | bool (b : Bool)
  | int (n : Int)
  | str (s : String)
  | list (xs : List PyVal)
  | dict (fields : List (String × PyVal))

/-! ## HealthProbe: `_get` and `checkService`

`_get(url, hostname)` performs a GET request (with an optional `Host`
header) and raises unless the response status is 200; `urlopen` itself
raises on timeouts, connection errors and HTTP error statuses.  We model
the network by an oracle `urlopen : String → Option String → Except PyErr Nat`
taking the url and the optional hostname to either a raised error or a
response status. -/

/-- `_get(url, hostname=None)`: raise if `urlopen` raises, raise
`Exception("Failed to GET ...")` if the status is not 200, otherwise
return the body (modelled as `Unit`; `checkService` discards it). -/
def _get (urlopen : String → Option String → Except PyErr Nat)
    (url : String) (hostname : Option String) : Except PyErr Unit :=
  match urlopen url hostname with
  | .error e => .error e
  | .ok st => if st ≠ 200 then .error (.non200Status st) else .ok ()

/-- Whether `_get` succeeds for a given url under a given oracle. -/
def getOk (urlopen : String → Option String → Except PyErr Nat)
    (hostname : Option String) (url : String) : Bool :=
  (_get urlopen url hostname).toBool

/-- `checkService(*urls, hostname=None)` with an explicit trace: the
`for` loop calls `_get` on each url in order; the first raised exception
is caught and yields `False`, otherwise the loop completes and yields
`True`.  The second component records the urls actually fetched. -/
def checkServiceT (urlopen : String → Option String → Except PyErr Nat)
    (urls : List String) (hostname : Option String) : Bool × List String :=
  match urls with
  | [] => (true, [])
  | url :: rest =>
    match _get urlopen url hostname with
    | .error _ => (false, [url])
    | .ok _ =>
      let r := checkServiceT urlopen rest hostname
      (r.1, url :: r.2)

/-- `checkService`'s boolean result (the value `main()` branches on). -/
def checkService (urlopen : String → Option String → Except PyErr Nat)
    (urls : List String) (hostname : Option String) : Bool :=
  (checkServiceT urlopen urls hostname).1

theorem checkServiceT_fst (urlopen : String → Option String → Except PyErr Nat)
    (urls : List String) (hostname : Option String) :
    (checkServiceT urlopen urls hostname).1 = urls.all (getOk urlopen hostname) := by
  induction urls with
  | nil => rfl
  | cons url rest ih =>
    simp only [checkServiceT, List.all_cons]
    cases h : _get urlopen url hostname with
    | error e => simp [getOk, h, Except.toBool]
    | ok v => simp [getOk, h, Except.toBool, ih]

theorem checkServiceT_snd (urlopen : String → Option String → Except PyErr Nat)
    (urls : List String) (hostname : Option String) :
    (checkServiceT urlopen urls hostname).2 =
      urls.takeWhile (getOk urlopen hostname) ++
        (urls.dropWhile (getOk urlopen hostname)).take 1 := by
  induction urls with
  | nil => rfl
  | cons url rest ih =>
    simp only [checkServiceT]
    cases h : _get urlopen url hostname with
    | error e =>
      have hf : getOk urlopen hostname url = false := by
        simp [getOk, h, Except.toBool]
      simp [List.takeWhile_cons, List.dropWhile_cons, hf]
    | ok v =>
      have ht : getOk urlopen hostname url = true := by
        simp [getOk, h, Except.toBool]
      simp [List.takeWhile_cons, List.dropWhile_cons, ht, ih]

/-! ## `_item`: recursive dictionary lookup

`_item(dict_, *keys, default=None)` walks nested containers.  Every call
site passes string keys and the default `None`, so we embed it for
string keys with `PyVal.none` as the default.  Python raises `TypeError`
when a string key meets a list (`len(dict_) <= keys[0]` compares `int`
with `str`), when `key in dict_` is evaluated on an `int`/`bool`, and on
`dict_[key]` when `dict_` is a string (`key in dict_` is then a
substring test; a hit leads to string indexing with a `str`). -/

def _item : PyVal → List String → Except PyErr PyVal
  | .none, _ => .ok .none
  | v, [] => .ok v
  | .list _, _ :: _ => .error .typeError
  | .dict fields, k :: ks =>
    match fields.lookup k with
    | Option.none => .ok .none
    | some v => _item v ks
  | .str s, k :: _ =>
    if k.toList <:+: s.toList then .error .typeError else .ok .none
  | .bool _, _ :: _ => .error .typeError
  | .int _, _ :: _ => .error .typeError

/-- Python `==` on the values of `PyVal`: `True == 1`, `None` equals
only `None`, lists compare pointwise, dicts compare as key-value maps
(same key set, equal value at each key). -/
def pyEq : PyVal → PyVal → Bool
  | .none, .none => true
  | .bool a, .bool b => a == b
  | .bool a, .int b => (if a then (1 : Int) else 0) == b
  | .int a, .bool b => a == (if b then (1 : Int) else 0)
  | .int a, .int b => a == b
  | .str a, .str b => a == b
  | .list as, .list bs =>
    as.length == bs.length &&
      (as.zip bs).attach.all fun p => pyEq p.1.1 p.1.2
  | .dict as, .dict bs =>
    (bs.all fun q => as.any fun p => p.1 == q.1) &&
      (as.attach.all fun p =>
        match bs.lookup p.1.1 with
        | some w => pyEq p.1.2 w
        | Option.none => false)
  | _, _ => false
termination_by a _ => sizeOf a
decreasing_by
  · obtain ⟨⟨x, y⟩, hmem⟩ := p
    have h1 := List.sizeOf_lt_of_mem (List.of_mem_zip hmem).1
    simp only [PyVal.list.sizeOf_spec]
    omega
  · obtain ⟨⟨k, v⟩, hmem⟩ := p
    have h1 := List.sizeOf_lt_of_mem hmem
    simp only [Prod.mk.sizeOf_spec] at h1
    simp only [PyVal.dict.sizeOf_spec]
    omega

/-! ## Node identity: `getMetadata` and `getDropletID`

`getMetadata` caches the parsed droplet metadata in the module-global
`_metadata`, which starts out as the Python value `None`
(`PyVal.none`); the global is threaded explicitly as a `PyVal`.  The
cache test is `_metadata != None and cache`, and every call site uses
the default `cache=True`, so the guard is Python `==` against `None`:
a fetch whose `json.loads` yields `None` assigns `None` to the global
and the next call fetches again.  The argument `fetch` is the outcome
`json.loads(_get('http://169.254.169.254/...'))` would have if it ran
for this call; on a raised exception the assignment does not happen.
The third result component records whether a metadata network request
was made by this call. -/

def getMetadata (cached : PyVal) (fetch : Except PyErr PyVal) :
    Except PyErr PyVal × PyVal × Bool :=
  if pyEq cached PyVal.none = false then (.ok cached, cached, false)
  else
    match fetch with
    | .ok v => (.ok v, v, true)
    | .error e => (.error e, cached, true)

/-- Python subscript `v[k]` for a string key: raises `KeyError` when the
key is absent from a dict and `TypeError` on non-dict values. -/
def pyIndex (v : PyVal) (k : String) : Except PyErr PyVal :=
  match v with
  | .dict fields =>
    match fields.lookup k with
    | some x => .ok x
    | Option.none => .error .keyError
  | _ => .error .typeError

/-- `getDropletID()`: `getMetadata()['droplet_id']`. -/
def getDropletID (cached : PyVal) (fetch : Except PyErr PyVal) :
    Except PyErr PyVal × PyVal × Bool :=
  match getMetadata cached fetch with
  | (.error e, st, req) => (.error e, st, req)
  | (.ok m, st, req) =>
    match pyIndex m "droplet_id" with
    | .error e => (.error e, st, req)
    | .ok v => (.ok v, st, req)

/-! ## OwnershipClient: `hasFloatingIP` and `takeFloatingIP`

`hasFloatingIP(ip, apiKey)` resolves the droplet id, GETs
`https://api.digitalocean.com/v2/floating_ips/<ip>` and returns
`dropletId == _item(data, 'floating_ip', 'droplet', 'id')`.  `ownResp`
is the outcome of that request including `json.loads` of its body; no
status check is performed on it in the source (`urlopen` itself raises
on 4xx/5xx).  The metadata cache is threaded through. -/

def hasFloatingIP (cached : PyVal) (metaFetch : Except PyErr PyVal)
    (ownResp : Except PyErr PyVal) : Except PyErr Bool × PyVal :=
  match getDropletID cached metaFetch with
  | (.error e, st, _) => (.error e, st)
  | (.ok dropletId, st, _) =>
    match ownResp with
    | .error e => (.error e, st)
    | .ok data =>
      match _item data ["floating_ip", "droplet", "id"] with
      | .error e => (.error e, st)
      | .ok v => (.ok (pyEq dropletId v), st)

/-- `takeFloatingIP(floatingIP, apiKey)`: resolve the droplet id, POST
the assign action, raise unless the response status is 200 or 201.
`takeResp` is the POST outcome (status code, or a `urlopen` error). -/
def takeFloatingIP (cached : PyVal) (metaFetch : Except PyErr PyVal)
    (takeResp : Except PyErr Nat) : Except PyErr Unit × PyVal :=
  match getDropletID cached metaFetch with
  | (.error e, st, _) => (.error e, st)
  | (.ok _, st, _) =>
    match takeResp with
    | .error e => (.error e, st)
    | .ok status =>
      if status ≠ 200 ∧ status ≠ 201 then (.error (.acquireFailed status), st)
      else (.ok (), st)

/-! ## `main()`: startup configuration

`main()` reads six environment variables through
`_item(os.environ, key)`, validates them, and only then starts the
watchdog and enters the loop.  The environment is a list of
key/value pairs (Python `os.environ` has unique keys). -/

/-- `_item(os.environ, key)` with the default `None`. -/
def envGet (environ : List (String × String)) (key : String) : Option String :=
  environ.lookup key

/-- Helper for `pySplit`: split a character list at every occurrence of
the separator (never merging adjacent separators, like Python). -/
def splitChar (sep : Char) : List Char → List (List Char)
  | [] => [[]]
  | c :: rest =>
    match splitChar sep rest with
    | [] => [[]]
    | g :: gs => if c = sep then [] :: g :: gs else (c :: g) :: gs

/-- Python `s.split(sep)` for a single-character separator, as used by
`checkURLs.split('|')` and `mainURLs.split('|')`:
`''.split('|') == ['']`, `'a||b'.split('|') == ['a', '', 'b']`. -/
def pySplit (s : String) (sep : Char) : List String :=
  (splitChar sep s.toList).map (fun cs => String.mk cs)

/-- The configuration values in scope when `main()` reaches
`watchdog.start()`: `checkURLs`/`mainURLs` are already split on `'|'`. -/
structure Config where
  mode : String
  apiKey : String
  floatingIP : String
  checkURLs : List String
  mainURLs : Option (List String)
  mainHost : Option String

/-- How `main()`'s startup section ends: early clean return (mode
unset), a raised configuration exception, or falling through to
`watchdog.start()` and the loop. -/
inductive StartupResult
  | disabled
  | startupError (e : PyErr)
  | started (cfg : Config)

/-- The startup section of `main()` (lines before `watchdog.start()`):
read the environment, return 0 if `FAILOVER_MODE` is unset, raise on
missing `API_KEY` / `FLOATING_IP`, override `checkURLs` with `mainURLs`
when mode is `'main'` and `FAILOVER_MAIN` is set, raise on missing
`checkURLs`, then split the url strings on `'|'`. -/
def startup (environ : List (String × String)) : StartupResult :=
  let mode := envGet environ "FAILOVER_MODE"
  let apiKey := envGet environ "API_KEY"
  let floatingIP := envGet environ "FLOATING_IP"
  let checkURLs := envGet environ "FAILOVER_CHECK"
  let mainURLs := envGet environ "FAILOVER_MAIN"
  let mainHost := envGet environ "FAILOVER_MAIN_HOST"
  match mode with
  | Option.none => .disabled
  | some m =>
    match apiKey with
    | Option.none => .startupError .missingApiKey
    | some ak =>
      match floatingIP with
      | Option.none => .startupError .missingFloatingIP
      | some fip =>
        let checkURLs := if m = "main" ∧ mainURLs ≠ Option.none
          then mainURLs else checkURLs
        match checkURLs with
        | Option.none => .startupError .missingCheck
        | some cu =>
          .started { mode := m, apiKey := ak, floatingIP := fip,
                     checkURLs := pySplit cu '|',
                     mainURLs := mainURLs.map (pySplit · '|'),
                     mainHost := mainHost }

/-! ## `main()`: the controller loop

One iteration of `while True` is `cycle`.  The network oracle for a
single iteration bundles the health-check GETs, the metadata fetch (if
one is attempted), the ownership GET and the acquire POST.  The
observable calls made during the iteration are recorded as `Action`s;
the iteration's outcome is `.ok ()` (reach `time.sleep(60)` and
continue) or `.error e` (an exception propagates out of the loop). -/

/-- Per-iteration network behaviour. -/
structure CycleEnv where
  urlopen : String → Option String → Except PyErr Nat
  metaFetch : Except PyErr PyVal
  ownResp : Except PyErr PyVal
  takeResp : Except PyErr Nat

/-- Observable calls made during one loop iteration. -/
inductive Action
  | kickWatchdog
  | selfCheck (result : Bool)
  | ownershipQuery
  | peerCheck (result : Bool)
  | acquire
  deriving DecidableEq, Repr

/-- One iteration of the `while True` loop in `main()`, threading the
metadata cache (`_metadata`).  Returns the recorded calls, the new
cache, and the outcome. -/
def cycle (cfg : Config) (env : CycleEnv) (st : PyVal) :
    List Action × PyVal × Except PyErr Unit :=
  let self := checkService env.urlopen cfg.checkURLs Option.none
  let acts := [Action.kickWatchdog, Action.selfCheck self]
  if self then
    if cfg.mode = "main" then
      match hasFloatingIP st env.metaFetch env.ownResp with
      | (.error e, st') => (acts ++ [.ownershipQuery], st', .error e)
      | (.ok true, st') => (acts ++ [.ownershipQuery], st', .ok ())
      | (.ok false, st') =>
        match takeFloatingIP st' env.metaFetch env.takeResp with
        | (.error e, st'') =>
          (acts ++ [.ownershipQuery, .acquire], st'', .error e)
        | (.ok _, st'') =>
          (acts ++ [.ownershipQuery, .acquire], st'', .ok ())
    else if cfg.mode = "standby" then
      match hasFloatingIP st env.metaFetch env.ownResp with
      | (.error e, st') => (acts ++ [.ownershipQuery], st', .error e)
      | (.ok true, st') => (acts ++ [.ownershipQuery], st', .ok ())
      | (.ok false, st') =>
        match cfg.mainURLs with
        | Option.none => (acts ++ [.ownershipQuery], st', .error .missingMain)
        | some murls =>
          let peer := checkService env.urlopen murls cfg.mainHost
          if peer then
            (acts ++ [.ownershipQuery, .peerCheck peer], st', .ok ())
          else
            match takeFloatingIP st' env.metaFetch env.takeResp with
            | (.error e, st'') =>
              (acts ++ [.ownershipQuery, .peerCheck peer, .acquire], st'',
                .error e)
            | (.ok _, st'') =>
              (acts ++ [.ownershipQuery, .peerCheck peer, .acquire], st'',
                .ok ())
    else
      (acts, st, .error .unsupportedMode)
  else
    (acts, st, .ok ())

/-- The loop run against a finite schedule of per-iteration
environments: iterations run in order until an exception propagates
(there is no handler inside the loop) or the schedule is exhausted. -/
def runLoop (cfg : Config) (envs : List CycleEnv) (st : PyVal) :
    List (List Action) × PyVal × Except PyErr Unit :=
  match envs with
  | [] => ([], st, .ok ())
  | env :: rest =>
    match cycle cfg env st with
    | (acts, st', .error e) => ([acts], st', .error e)
    | (acts, st', .ok _) =>
      match runLoop cfg rest st' with
      | (tr, st'', out) => (acts :: tr, st'', out)

/-- How a run of `main()` ends for an observer: early return, startup
exception, or a started run (watchdog started, loop iterations ran,
`finally: watchdog.stop()` executed when the loop ended). -/
inductive RunResult
  | disabled
  | startupError (e : PyErr)
  | ran (trace : List (List Action)) (outcome : Except PyErr Unit)

/-- `main()` end to end against a finite schedule: startup, then
`watchdog.start()` and the loop (an exception propagates into the
`finally` block, which stops the watchdog, and then out of `main`). -/
def mainProgram (environ : List (String × String)) (envs : List CycleEnv) :
    RunResult :=
  match startup environ with
  | .disabled => .disabled
  | .startupError e => .startupError e
  | .started cfg =>
    match runLoop cfg envs PyVal.none with
    | (tr, _, out) => .ran tr out

/-! ## The `Watchdog` thread

`Watchdog.run()` loops `while not _stop.is_set(): if _kick.wait(timeout):
_kick.clear() else: callback()`.  We model the thread together with its
callers as a deterministic interpreter over an explicit schedule of
atomic events, one unit of time per `tick`:

* `kick` — `kick()` from the controller thread: `_kick.set()`;
* `stop` — `stop()`: `_stop.set(); _kick.set()`; the event is atomic,
  so `stopFlag = true` also means "`stop()` has returned";
* `loopTest` — the thread evaluates `while not self._stop.is_set()` and
  either exits or enters `_kick.wait(self.timeout)` with deadline
  `now + timeout`;
* `waitReturnTrue` — the wait observes `_kick` set, returns `True`, and
  the thread clears `_kick`;
* `waitTimeout` — the wait's deadline has passed with `_kick` unset, so
  it returns `False`;
* `invokeCallback` — the thread, having seen `wait` return `False`,
  enters `callback()`.  The configured callback `onWatchdogTimeout`
  raises `SystemExit` (`sys.exit(1)`), which propagates out of `run()`
  and ends the thread, so the program counter moves to `done`.

An event whose precondition does not hold leaves the state unchanged,
so lists of events enumerate exactly the interleavings. -/

/-- Program counter of the `Watchdog.run()` thread. -/
inductive WDpc
  | checkLoop
  | waiting (deadline : Nat)
  | preFire
  | done
  deriving DecidableEq, Repr

/-- State shared between the watchdog thread and its callers, plus the
bookkeeping used to state properties (`sinceKick`: time since the last
`kick()` or since `start()`; `fires`: callback invocations;
`firedAfterStop`: a callback invocation began after `stop()` returned). -/
structure WDState where
  kickFlag : Bool
  stopFlag : Bool
  now : Nat
  sinceKick : Nat
  pc : WDpc
  fires : Nat
  firedAfterStop : Bool
  deriving DecidableEq, Repr

/-- State right after `start()`: both events cleared, thread at the top
of the loop. -/
def wdInit : WDState :=
  { kickFlag := false, stopFlag := false, now := 0, sinceKick := 0,
    pc := .checkLoop, fires := 0, firedAfterStop := false }

/-- Schedule events (interleaved caller and thread steps). -/
inductive WDEvent
  | tick
  | kick
  | stop
  | loopTest
  | waitReturnTrue
  | waitTimeout
  | invokeCallback
  deriving DecidableEq, Repr

/-- One atomic event, for a watchdog built with `timeout = T`. -/
def wdStep (T : Nat) (s : WDState) : WDEvent → WDState
  | .tick => { s with now := s.now + 1, sinceKick := s.sinceKick + 1 }
  | .kick => { s with kickFlag := true, sinceKick := 0 }
  | .stop => { s with stopFlag := true, kickFlag := true }
  | .loopTest =>
    match s.pc with
    | .checkLoop =>
      if s.stopFlag then { s with pc := .done }
      else { s with pc := .waiting (s.now + T) }
    | _ => s
  | .waitReturnTrue =>
    match s.pc with
    | .waiting _ =>
      if s.kickFlag then { s with kickFlag := false, pc := .checkLoop }
      else s
    | _ => s
  | .waitTimeout =>
    match s.pc with
    | .waiting d =>
      if s.kickFlag = false ∧ d ≤ s.now then { s with pc := .preFire }
      else s
    | _ => s
  | .invokeCallback =>
    match s.pc with
    | .preFire =>
      { s with pc := .done, fires := s.fires + 1,
               firedAfterStop := s.firedAfterStop || s.stopFlag }
    | _ => s

/-- Run a schedule of events. -/
def wdRun (T : Nat) (s : WDState) : List WDEvent → WDState
  | [] => s
  | e :: es => wdRun T (wdStep T s e) es

/-- All states visited while running a schedule (including first and
last). -/
def wdStates (T : Nat) (s : WDState) : List WDEvent → List WDState
  | [] => [s]
  | e :: es => s :: wdStates T (wdStep T s e) es

/-! ### Watchdog invariants -/

/-- Invariant for the frequent-kick property: nothing has fired, the
thread is not between a timed-out wait and `callback()`, and while
`_kick` is clear any armed deadline is at least `T - sinceKick` away. -/
def wdNoFireInv (T : Nat) (s : WDState) : Prop :=
  s.fires = 0 ∧ s.pc ≠ .preFire ∧
    ∀ d, s.pc = .waiting d → s.kickFlag = false → s.now + T ≤ d + s.sinceKick

lemma wdNoFireInv_step {T : Nat} {s : WDState} (e : WDEvent)
    (h : wdNoFireInv T s) (hk : s.sinceKick < T) :
    wdNoFireInv T (wdStep T s e) := by
  obtain ⟨h1, h2, h3⟩ := h
  cases e with
  | tick =>
    have hs : wdStep T s .tick =
        { s with now := s.now + 1, sinceKick := s.sinceKick + 1 } := rfl
    rw [hs]
    refine ⟨h1, h2, fun d hd hf => ?_⟩
    have := h3 d hd hf
    show s.now + 1 + T ≤ d + (s.sinceKick + 1)
    omega
  | kick =>
    have hs : wdStep T s .kick =
        { s with kickFlag := true, sinceKick := 0 } := rfl
    rw [hs]
    exact ⟨h1, h2, fun d hd hf => by exact absurd hf (by simp)⟩
  | stop =>
    have hs : wdStep T s .stop =
        { s with stopFlag := true, kickFlag := true } := rfl
    rw [hs]
    exact ⟨h1, h2, fun d hd hf => by exact absurd hf (by simp)⟩
  | loopTest =>
    cases hpc : s.pc with
    | checkLoop =>
      cases hstop : s.stopFlag
      · have hs : wdStep T s .loopTest =
            { s with pc := .waiting (s.now + T) } := by
          simp [wdStep, hpc, hstop]
        rw [hs]
        refine ⟨h1, by simp, fun d hd hf => ?_⟩
        have hd' : s.now + T = d := by
          have : WDpc.waiting (s.now + T) = WDpc.waiting d := hd
          injection this
        show s.now + T ≤ d + s.sinceKick
        omega
      · have hs : wdStep T s .loopTest = { s with pc := .done } := by
          simp [wdStep, hpc, hstop]
        rw [hs]
        exact ⟨h1, by simp, fun d hd => by exact absurd hd (by simp)⟩
    | waiting d =>
      have hs : wdStep T s .loopTest = s := by simp [wdStep, hpc]
      rw [hs]; exact ⟨h1, h2, h3⟩
    | preFire => exact absurd hpc h2
    | done =>
      have hs : wdStep T s .loopTest = s := by simp [wdStep, hpc]
      rw [hs]; exact ⟨h1, h2, h3⟩
  | waitReturnTrue =>
    cases hpc : s.pc with
    | waiting d =>
      cases hkf : s.kickFlag
      · have hs : wdStep T s .waitReturnTrue = s := by
          simp [wdStep, hpc, hkf]
        rw [hs]; exact ⟨h1, h2, h3⟩
      · have hs : wdStep T s .waitReturnTrue =
            { s with kickFlag := false, pc := .checkLoop } := by
          simp [wdStep, hpc, hkf]
        rw [hs]
        exact ⟨h1, by simp, fun d hd => by exact absurd hd (by simp)⟩
    | checkLoop =>
      have hs : wdStep T s .waitReturnTrue = s := by simp [wdStep, hpc]
      rw [hs]; exact ⟨h1, h2, h3⟩
    | preFire => exact absurd hpc h2
    | done =>
      have hs : wdStep T s .waitReturnTrue = s := by simp [wdStep, hpc]
      rw [hs]; exact ⟨h1, h2, h3⟩
  | waitTimeout =>
    cases hpc : s.pc with
    | waiting d =>
      have hcond : ¬(s.kickFlag = false ∧ d ≤ s.now) := by
        rintro ⟨hkf, hdn⟩
        have := h3 d hpc hkf
        omega
      have hs : wdStep T s .waitTimeout = s := by
        simp only [wdStep, hpc]
        rw [if_neg hcond]
      rw [hs]; exact ⟨h1, h2, h3⟩
    | checkLoop =>
      have hs : wdStep T s .waitTimeout = s := by simp [wdStep, hpc]
      rw [hs]; exact ⟨h1, h2, h3⟩
    | preFire => exact absurd hpc h2
    | done =>
      have hs : wdStep T s .waitTimeout = s := by simp [wdStep, hpc]
      rw [hs]; exact ⟨h1, h2, h3⟩
  | invokeCallback =>
    cases hpc : s.pc with
    | preFire => exact absurd hpc h2
    | checkLoop =>
      have hs : wdStep T s .invokeCallback = s := by simp [wdStep, hpc]
      rw [hs]; exact ⟨h1, h2, h3⟩
    | waiting d =>
      have hs : wdStep T s .invokeCallback = s := by simp [wdStep, hpc]
      rw [hs]; exact ⟨h1, h2, h3⟩
    | done =>
      have hs : wdStep T s .invokeCallback = s := by simp [wdStep, hpc]
      rw [hs]; exact ⟨h1, h2, h3⟩

lemma wdNoFireInv_run {T : Nat} :
    ∀ (evs : List WDEvent) (s : WDState), wdNoFireInv T s →
      (∀ s' ∈ wdStates T s evs, s'.sinceKick < T) →
      wdNoFireInv T (wdRun T s evs) := by
  intro evs
  induction evs with
  | nil => intro s h _; exact h
  | cons e es ih =>
    intro s h hall
    refine ih (wdStep T s e) (wdNoFireInv_step e h ?_) ?_
    · exact hall s (by simp [wdStates])
    · intro s' hs'
      exact hall s' (by simp [wdStates]; right; exact hs')

/-- Invariant for at-most-one firing: once the callback has run, the
thread is `done` (the `SystemExit` from `sys.exit(1)` ended `run()`). -/
def wdOnceInv (s : WDState) : Prop :=
  s.fires ≤ 1 ∧ (1 ≤ s.fires → s.pc = .done)

lemma wdOnceInv_step {T : Nat} {s : WDState} (e : WDEvent)
    (h : wdOnceInv s) : wdOnceInv (wdStep T s e) := by
  obtain ⟨h1, h2⟩ := h
  have hfires : ∀ pc', s.pc = pc' → pc' ≠ .done → s.fires = 0 := by
    intro pc' hpc hne
    by_contra hne0
    exact hne (hpc ▸ h2 (by omega))
  cases e with
  | tick => exact ⟨h1, h2⟩
  | kick => exact ⟨h1, h2⟩
  | stop => exact ⟨h1, h2⟩
  | loopTest =>
    cases hpc : s.pc with
    | checkLoop =>
      cases hstop : s.stopFlag
      · have hs : wdStep T s .loopTest =
            { s with pc := .waiting (s.now + T) } := by
          simp [wdStep, hpc, hstop]
        rw [hs]
        have h0 := hfires _ hpc (by simp)
        refine ⟨?_, fun hc => ?_⟩
        · show s.fires ≤ 1
          omega
        · rw [show ({ s with pc := WDpc.waiting (s.now + T) } : WDState).fires = s.fires from rfl] at hc
          omega
      · have hs : wdStep T s .loopTest = { s with pc := .done } := by
          simp [wdStep, hpc, hstop]
        rw [hs]
        exact ⟨h1, fun _ => rfl⟩
    | waiting d =>
      have hs : wdStep T s .loopTest = s := by simp [wdStep, hpc]
      rw [hs]; exact ⟨h1, h2⟩
    | preFire =>
      have hs : wdStep T s .loopTest = s := by simp [wdStep, hpc]
      rw [hs]; exact ⟨h1, h2⟩
    | done =>
      have hs : wdStep T s .loopTest = s := by simp [wdStep, hpc]
      rw [hs]; exact ⟨h1, h2⟩
  | waitReturnTrue =>
    cases hpc : s.pc with
    | waiting d =>
      cases hkf : s.kickFlag
      · have hs : wdStep T s .waitReturnTrue = s := by
          simp [wdStep, hpc, hkf]
        rw [hs]; exact ⟨h1, h2⟩
      · have hs : wdStep T s .waitReturnTrue =
            { s with kickFlag := false, pc := .checkLoop } := by
          simp [wdStep, hpc, hkf]
        rw [hs]
        have h0 := hfires _ hpc (by simp)
        refine ⟨?_, fun hc => ?_⟩
        · show s.fires ≤ 1
          omega
        · rw [show ({ s with kickFlag := false, pc := WDpc.checkLoop } : WDState).fires = s.fires from rfl] at hc
          omega
    | checkLoop =>
      have hs : wdStep T s .waitReturnTrue = s := by simp [wdStep, hpc]
      rw [hs]; exact ⟨h1, h2⟩
    | preFire =>
      have hs : wdStep T s .waitReturnTrue = s := by simp [wdStep, hpc]
      rw [hs]; exact ⟨h1, h2⟩
    | done =>
      have hs : wdStep T s .waitReturnTrue = s := by simp [wdStep, hpc]
      rw [hs]; exact ⟨h1, h2⟩
  | waitTimeout =>
    cases hpc : s.pc with
    | waiting d =>
      by_cases hcond : s.kickFlag = false ∧ d ≤ s.now
      · have hs : wdStep T s .waitTimeout = { s with pc := .preFire } := by
          simp only [wdStep, hpc]
          rw [if_pos hcond]
        rw [hs]
        have h0 := hfires _ hpc (by simp)
        refine ⟨?_, fun hc => ?_⟩
        · show s.fires ≤ 1
          omega
        · rw [show ({ s with pc := WDpc.preFire } : WDState).fires = s.fires from rfl] at hc
          omega
      · have hs : wdStep T s .waitTimeout = s := by
          simp only [wdStep, hpc]
          rw [if_neg hcond]
        rw [hs]; exact ⟨h1, h2⟩
    | checkLoop =>
      have hs : wdStep T s .waitTimeout = s := by simp [wdStep, hpc]
      rw [hs]; exact ⟨h1, h2⟩
    | preFire =>
      have hs : wdStep T s .waitTimeout = s := by simp [wdStep, hpc]
      rw [hs]; exact ⟨h1, h2⟩
    | done =>
      have hs : wdStep T s .waitTimeout = s := by simp [wdStep, hpc]
      rw [hs]; exact ⟨h1, h2⟩
  | invokeCallback =>
    cases hpc : s.pc with
    | preFire =>
      have hs : wdStep T s .invokeCallback =
          { s with pc := .done, fires := s.fires + 1,
                   firedAfterStop := s.firedAfterStop || s.stopFlag } := by
        simp [wdStep, hpc]
      rw [hs]
      have h0 := hfires _ hpc (by simp)
      refine ⟨?_, fun _ => rfl⟩
      show s.fires + 1 ≤ 1
      omega
    | checkLoop =>
      have hs : wdStep T s .invokeCallback = s := by simp [wdStep, hpc]
      rw [hs]; exact ⟨h1, h2⟩
    | waiting d =>
      have hs : wdStep T s .invokeCallback = s := by simp [wdStep, hpc]
      rw [hs]; exact ⟨h1, h2⟩
    | done =>
      have hs : wdStep T s .invokeCallback = s := by simp [wdStep, hpc]
      rw [hs]; exact ⟨h1, h2⟩

lemma wdOnceInv_run {T : Nat} :
    ∀ (evs : List WDEvent) (s : WDState), wdOnceInv s →
      wdOnceInv (wdRun T s evs) := by
  intro evs
  induction evs with
  | nil => intro s h; exact h
  | cons e es ih => intro s h; exact ih _ (wdOnceInv_step e h)

/-- Invariant after `stop()` has returned with no trip in flight: the
thread can only drain towards `done`, never towards `callback()`. -/
def wdStopInv (s : WDState) : Prop :=
  s.stopFlag = true ∧ s.pc ≠ .preFire ∧
    ∀ d, s.pc = .waiting d → s.kickFlag = true

lemma wdStopInv_step {T : Nat} {s : WDState} (e : WDEvent)
    (h : wdStopInv s) :
    wdStopInv (wdStep T s e) ∧ (wdStep T s e).fires = s.fires := by
  obtain ⟨h1, h2, h3⟩ := h
  cases e with
  | tick => exact ⟨⟨h1, h2, h3⟩, rfl⟩
  | kick => exact ⟨⟨h1, h2, fun d _ => rfl⟩, rfl⟩
  | stop => exact ⟨⟨rfl, h2, fun d _ => rfl⟩, rfl⟩
  | loopTest =>
    cases hpc : s.pc with
    | checkLoop =>
      have hs : wdStep T s .loopTest = { s with pc := .done } := by
        simp [wdStep, hpc, h1]
      rw [hs]
      exact ⟨⟨h1, by simp, fun d hd => by exact absurd hd (by simp)⟩, rfl⟩
    | waiting d =>
      have hs : wdStep T s .loopTest = s := by simp [wdStep, hpc]
      rw [hs]; exact ⟨⟨h1, h2, h3⟩, rfl⟩
    | preFire => exact absurd hpc h2
    | done =>
      have hs : wdStep T s .loopTest = s := by simp [wdStep, hpc]
      rw [hs]; exact ⟨⟨h1, h2, h3⟩, rfl⟩
  | waitReturnTrue =>
    cases hpc : s.pc with
    | waiting d =>
      have hkf : s.kickFlag = true := h3 d hpc
      have hs : wdStep T s .waitReturnTrue =
          { s with kickFlag := false, pc := .checkLoop } := by
        simp [wdStep, hpc, hkf]
      rw [hs]
      exact ⟨⟨h1, by simp, fun d hd => by exact absurd hd (by simp)⟩, rfl⟩
    | checkLoop =>
      have hs : wdStep T s .waitReturnTrue = s := by simp [wdStep, hpc]
      rw [hs]; exact ⟨⟨h1, h2, h3⟩, rfl⟩
    | preFire => exact absurd hpc h2
    | done =>
      have hs : wdStep T s .waitReturnTrue = s := by simp [wdStep, hpc]
      rw [hs]; exact ⟨⟨h1, h2, h3⟩, rfl⟩
  | waitTimeout =>
    cases hpc : s.pc with
    | waiting d =>
      have hkf : s.kickFlag = true := h3 d hpc
      have hcond : ¬(s.kickFlag = false ∧ d ≤ s.now) := by
        rintro ⟨hkf', _⟩
        rw [hkf] at hkf'
        exact absurd hkf' (by simp)
      have hs : wdStep T s .waitTimeout = s := by
        simp only [wdStep, hpc]
        rw [if_neg hcond]
      rw [hs]; exact ⟨⟨h1, h2, h3⟩, rfl⟩
    | checkLoop =>
      have hs : wdStep T s .waitTimeout = s := by simp [wdStep, hpc]
      rw [hs]; exact ⟨⟨h1, h2, h3⟩, rfl⟩
    | preFire => exact absurd hpc h2
    | done =>
      have hs : wdStep T s .waitTimeout = s := by simp [wdStep, hpc]
      rw [hs]; exact ⟨⟨h1, h2, h3⟩, rfl⟩
  | invokeCallback =>
    cases hpc : s.pc with
    | preFire => exact absurd hpc h2
    | checkLoop =>
      have hs : wdStep T s .invokeCallback = s := by simp [wdStep, hpc]
      rw [hs]; exact ⟨⟨h1, h2, h3⟩, rfl⟩
    | waiting d =>
      have hs : wdStep T s .invokeCallback = s := by simp [wdStep, hpc]
      rw [hs]; exact ⟨⟨h1, h2, h3⟩, rfl⟩
    | done =>
      have hs : wdStep T s .invokeCallback = s := by simp [wdStep, hpc]
      rw [hs]; exact ⟨⟨h1, h2, h3⟩, rfl⟩

lemma wdStopInv_run {T : Nat} :
    ∀ (evs : List WDEvent) (s : WDState), wdStopInv s →
      (wdRun T s evs).fires = s.fires := by
  intro evs
  induction evs with
  | nil => intro s _; rfl
  | cons e es ih =>
    intro s h
    have hstep := wdStopInv_step (T := T) e h
    rw [wdRun, ih _ hstep.1, hstep.2]

lemma wdRun_ticks {T : Nat} :
    ∀ (n : Nat) (s : WDState), wdRun T s (List.replicate n .tick) =
      { s with now := s.now + n, sinceKick := s.sinceKick + n } := by
  intro n
  induction n with
  | zero => intro s; rfl
  | succ k ih =>
    intro s
    rw [List.replicate_succ, wdRun, ih]
    simp only [wdStep]
    congr 1 <;> omega

lemma wdRun_append {T : Nat} :
    ∀ (a b : List WDEvent) (s : WDState),
      wdRun T s (a ++ b) = wdRun T (wdRun T s a) b := by
  intro a
  induction a with
  | nil => intro b s; rfl
  | cons e es ih => intro b s; rw [List.cons_append, wdRun, wdRun, ih]

/-! ## Concrete fixtures

Small concrete oracles, responses and configurations used to instantiate
the theorems below on closed inputs. -/

/-- Network where every GET succeeds with status 200. -/
def okOracle : String → Option String → Except PyErr Nat := fun _ _ => .ok 200

/-- Network where every GET raises. -/
def failOracle : String → Option String → Except PyErr Nat :=
  fun _ _ => .error .urlopenFailed

/-- Network where only the peer url is down. -/
def peerDownOracle : String → Option String → Except PyErr Nat :=
  fun url _ => if url = "http://peer/" then .error .urlopenFailed else .ok 200

/-- Droplet metadata with id 123. -/
def demoMeta : PyVal := .dict [("droplet_id", .int 123)]

/-- API answer: the floating IP is assigned to droplet 123 (this node). -/
def ownedResp : PyVal :=
  .dict [("floating_ip", .dict [("droplet", .dict [("id", .int 123)])])]

/-- API answer: the floating IP is assigned to droplet 456 (the peer). -/
def notOwnedResp : PyVal :=
  .dict [("floating_ip", .dict [("droplet", .dict [("id", .int 456)])])]

/-- API answer of an unexpected shape: `floating_ip.droplet` has no
`id` field. -/
def malformedResp : PyVal :=
  .dict [("floating_ip", .dict [("droplet", .dict [])])]

/-- A `mode='main'` configuration. -/
def mainCfg : Config :=
  { mode := "main", apiKey := "k", floatingIP := "1.2.3.4",
    checkURLs := ["http://localhost/health"], mainURLs := Option.none,
    mainHost := Option.none }

/-- A `mode='standby'` configuration with a configured peer. -/
def standbyCfg : Config :=
  { mainCfg with
    mode := "standby"
    mainURLs := some ["http://peer/"] }

/-- A `mode='standby'` configuration with no `FAILOVER_MAIN` set. -/
def standbyCfgNoMain : Config := { mainCfg with mode := "standby" }

/-- Cycle in which the node is healthy and does not own the IP. -/
def envHealthyNotOwner : CycleEnv :=
  { urlopen := okOracle, metaFetch := .ok demoMeta,
    ownResp := .ok notOwnedResp, takeResp := .ok 201 }

/-- Cycle in which the node is healthy and owns the IP. -/
def envHealthyOwner : CycleEnv :=
  { envHealthyNotOwner with ownResp := .ok ownedResp }

/-- Cycle in which the self health check fails. -/
def envUnhealthy : CycleEnv :=
  { envHealthyNotOwner with urlopen := failOracle }

/-- Cycle in which the ownership query raises (authority unreachable). -/
def envAuthErr : CycleEnv :=
  { envHealthyNotOwner with ownResp := .error .urlopenFailed }

/-- Cycle in which the node is healthy, does not own the IP, and the
peer is down. -/
def envPeerDown : CycleEnv :=
  { envHealthyNotOwner with urlopen := peerDownOracle }

/-! ## Claims -/

/-- C1: `checkService` returns `true` iff every url in the sequence
responds successfully, returns `false` iff some url fails (timeout,
connection error or non-success status all surface as a raised
exception, i.e. `getOk = false`), and it stops at the first failing
url: the urls actually fetched are the successful prefix plus the
first failure, wherever it sits. -/
theorem checkService_true_iff_all_ok
    (urlopen : String → Option String → Except PyErr Nat)
    (urls : List String) (hostname : Option String) :
    (checkService urlopen urls hostname = true ↔
      ∀ url ∈ urls, getOk urlopen hostname url = true) ∧
    (checkService urlopen urls hostname = false ↔
      ∃ url ∈ urls, getOk urlopen hostname url = false) ∧
    (checkServiceT urlopen urls hostname).2 =
      urls.takeWhile (getOk urlopen hostname) ++
        (urls.dropWhile (getOk urlopen hostname)).take 1 := by
  refine ⟨?_, ?_, checkServiceT_snd urlopen urls hostname⟩
  · rw [checkService, checkServiceT_fst]
    simp
  · rw [checkService, checkServiceT_fst]
    simp [List.all_eq_false]

/-- C1 witness: under `peerDownOracle`, a sequence with the failing url
in the middle yields `false` and fetching stops right after it. -/
theorem checkService_true_iff_all_ok_witness :
    checkService peerDownOracle ["http://a/", "http://peer/", "http://b/"]
      Option.none = false ∧
    (checkServiceT peerDownOracle ["http://a/", "http://peer/", "http://b/"]
      Option.none).2 = ["http://a/", "http://peer/"] := by
  have h := checkService_true_iff_all_ok peerDownOracle
    ["http://a/", "http://peer/", "http://b/"] Option.none
  refine ⟨h.2.1.mpr ⟨"http://peer/", by simp, by rfl⟩, ?_⟩
  rw [h.2.2]
  rfl

/-- C2: in a cycle whose self health check comes back `false`, the
loop body only kicks the watchdog and logs: no ownership query, no
acquire call, no metadata-state change, and no exception — whatever the
role and whatever the ownership or peer state. -/
theorem unhealthy_cycle_is_passive (cfg : Config) (env : CycleEnv)
    (st : PyVal)
    (h : checkService env.urlopen cfg.checkURLs Option.none = false) :
    (cycle cfg env st).1 = [.kickWatchdog, .selfCheck false] ∧
    Action.ownershipQuery ∉ (cycle cfg env st).1 ∧
    Action.acquire ∉ (cycle cfg env st).1 ∧
    (cycle cfg env st).2 = (st, .ok ()) := by
  refine ⟨?_, ?_, ?_, ?_⟩ <;> simp [cycle, h]

/-- C2 witness: a `main`-role cycle with a failing health check makes
no ownership query and no acquire call. -/
theorem unhealthy_cycle_is_passive_witness :
    (cycle mainCfg envUnhealthy PyVal.none).1 =
      [.kickWatchdog, .selfCheck false] ∧
    Action.ownershipQuery ∉ (cycle mainCfg envUnhealthy PyVal.none).1 ∧
    Action.acquire ∉ (cycle mainCfg envUnhealthy PyVal.none).1 ∧
    (cycle mainCfg envUnhealthy PyVal.none).2 = (PyVal.none, .ok ()) :=
  unhealthy_cycle_is_passive mainCfg envUnhealthy PyVal.none (by rfl)

/-- C3: in a `main`-role cycle, if the self check succeeds then an
ownership answer of `False` leads to exactly one `takeFloatingIP` call
and an answer of `True` to none; and in the main role the peer
EndpointSet is never probed, whatever the cycle's outcome. -/
theorem main_role_acquire_policy (cfg : Config) (env : CycleEnv)
    (st : PyVal) (hmode : cfg.mode = "main") :
    (checkService env.urlopen cfg.checkURLs Option.none = true →
      ((hasFloatingIP st env.metaFetch env.ownResp).1 = .ok false →
        (cycle cfg env st).1.count .acquire = 1) ∧
      ((hasFloatingIP st env.metaFetch env.ownResp).1 = .ok true →
        (cycle cfg env st).1.count .acquire = 0)) ∧
    ∀ b, Action.peerCheck b ∉ (cycle cfg env st).1 := by
  cases hown : hasFloatingIP st env.metaFetch env.ownResp with
  | mk r st2 =>
  cases hself : checkService env.urlopen cfg.checkURLs Option.none
  · refine ⟨fun hc => ?_, fun b => ?_⟩
    · exact absurd hc (by simp)
    · simp [cycle, hself]
  · cases r with
    | error e =>
      refine ⟨fun _ => ⟨fun hr => ?_, fun hr => ?_⟩, fun b => ?_⟩
      · simp at hr
      · simp at hr
      · simp [cycle, hself, hmode, hown]
    | ok b =>
      cases b
      · cases htake : takeFloatingIP st2 env.metaFetch env.takeResp with
        | mk tr st3 =>
        cases tr with
        | error e2 =>
          refine ⟨fun _ => ⟨fun _ => ?_, fun hr => ?_⟩, fun b => ?_⟩
          · simp [cycle, hself, hmode, hown, htake]
          · simp at hr
          · simp [cycle, hself, hmode, hown, htake]
        | ok u =>
          refine ⟨fun _ => ⟨fun _ => ?_, fun hr => ?_⟩, fun b => ?_⟩
          · simp [cycle, hself, hmode, hown, htake]
          · simp at hr
          · simp [cycle, hself, hmode, hown, htake]
      · refine ⟨fun _ => ⟨fun hr => ?_, fun _ => ?_⟩, fun b => ?_⟩
        · simp at hr
        · simp [cycle, hself, hmode, hown]
        · simp [cycle, hself, hmode, hown]

/-- C3 witness: concrete healthy `main` cycles — not owning yields one
acquire, owning yields none, and no peer probe happens either way. -/
theorem main_role_acquire_policy_witness :
    (cycle mainCfg envHealthyNotOwner PyVal.none).1.count .acquire = 1 ∧
    (cycle mainCfg envHealthyOwner PyVal.none).1.count .acquire = 0 ∧
    Action.peerCheck true ∉ (cycle mainCfg envHealthyNotOwner PyVal.none).1 ∧
    Action.peerCheck false ∉ (cycle mainCfg envHealthyNotOwner PyVal.none).1 := by
  have h1 := main_role_acquire_policy mainCfg envHealthyNotOwner PyVal.none rfl
  have h2 := main_role_acquire_policy mainCfg envHealthyOwner PyVal.none rfl
  refine ⟨(h1.1 (by rfl)).1 ?_, (h2.1 (by rfl)).2 ?_, h1.2 true, h1.2 false⟩
  · simp [hasFloatingIP, getDropletID, getMetadata, pyIndex, _item, pyEq,
      envHealthyNotOwner, demoMeta, notOwnedResp]
  · simp [hasFloatingIP, getDropletID, getMetadata, pyIndex, _item, pyEq,
      envHealthyOwner, envHealthyNotOwner, demoMeta, ownedResp]

/-- C4: in a healthy `standby`-role cycle with a configured peer set,
when the node does not own the IP the peer set is probed (with the
configured host override): a healthy peer means no acquire call, an
unhealthy peer means exactly one; when the node owns the IP there is
no acquire call and no peer probe. -/
theorem standby_role_acquire_policy (cfg : Config) (env : CycleEnv)
    (st : PyVal) (murls : List String)
    (hmode : cfg.mode = "standby") (hmu : cfg.mainURLs = some murls)
    (hself : checkService env.urlopen cfg.checkURLs Option.none = true) :
    ((hasFloatingIP st env.metaFetch env.ownResp).1 = .ok false →
      (checkService env.urlopen murls cfg.mainHost = true →
        (cycle cfg env st).1.count .acquire = 0 ∧
        Action.peerCheck true ∈ (cycle cfg env st).1) ∧
      (checkService env.urlopen murls cfg.mainHost = false →
        (cycle cfg env st).1.count .acquire = 1 ∧
        Action.peerCheck false ∈ (cycle cfg env st).1)) ∧
    ((hasFloatingIP st env.metaFetch env.ownResp).1 = .ok true →
      (cycle cfg env st).1.count .acquire = 0 ∧
      ∀ b, Action.peerCheck b ∉ (cycle cfg env st).1) := by
  have hnotmain : ¬cfg.mode = "main" := by rw [hmode]; decide
  cases hown : hasFloatingIP st env.metaFetch env.ownResp with
  | mk r st2 =>
  cases r with
  | error e =>
    refine ⟨fun hr => ?_, fun hr => ?_⟩ <;>
      · simp at hr
  | ok b =>
    cases b
    · refine ⟨fun _ => ⟨fun hpeer => ?_, fun hpeer => ?_⟩, fun hr => ?_⟩
      · constructor <;>
          simp [cycle, hself, hmode, hnotmain, hown, hmu, hpeer]
      · cases htake : takeFloatingIP st2 env.metaFetch env.takeResp with
        | mk tr st3 =>
        cases tr with
        | error e2 =>
          constructor <;>
            simp [cycle, hself, hmode, hnotmain, hown, hmu, hpeer, htake]
        | ok u =>
          constructor <;>
            simp [cycle, hself, hmode, hnotmain, hown, hmu, hpeer, htake]
      · simp at hr
    · refine ⟨fun hr => ?_, fun _ => ?_⟩
      · simp at hr
      · constructor
        · simp [cycle, hself, hmode, hnotmain, hown]
        · intro b
          simp [cycle, hself, hmode, hnotmain, hown]

/-- C4 witness: concrete healthy `standby` cycles — peer up and not
owning yields no acquire, peer down and not owning yields one acquire,
owning yields no acquire and no peer probe. -/
theorem standby_role_acquire_policy_witness :
    (cycle standbyCfg envHealthyNotOwner PyVal.none).1.count .acquire = 0 ∧
    (cycle standbyCfg envPeerDown PyVal.none).1.count .acquire = 1 ∧
    (cycle standbyCfg envHealthyOwner PyVal.none).1.count .acquire = 0 ∧
    Action.peerCheck true ∉ (cycle standbyCfg envHealthyOwner PyVal.none).1 := by
  have h1 := standby_role_acquire_policy standbyCfg envHealthyNotOwner
    PyVal.none ["http://peer/"] rfl rfl (by rfl)
  have h2 := standby_role_acquire_policy standbyCfg envPeerDown
    PyVal.none ["http://peer/"] rfl rfl (by rfl)
  have h3 := standby_role_acquire_policy standbyCfg envHealthyOwner
    PyVal.none ["http://peer/"] rfl rfl (by rfl)
  have hno : (hasFloatingIP PyVal.none (Except.ok demoMeta)
      (.ok notOwnedResp)).1 = .ok false := by
    simp [hasFloatingIP, getDropletID, getMetadata, pyIndex, _item, pyEq,
      demoMeta, notOwnedResp]
  have hyes : (hasFloatingIP PyVal.none (Except.ok demoMeta)
      (.ok ownedResp)).1 = .ok true := by
    simp [hasFloatingIP, getDropletID, getMetadata, pyIndex, _item, pyEq,
      demoMeta, ownedResp]
  refine ⟨((h1.1 hno).1 (by rfl)).1, ((h2.1 hno).2 (by rfl)).1,
    (h3.2 hyes).1, (h3.2 hyes).2 true⟩

/-- A standby environment with every required variable except
`FAILOVER_MAIN`. -/
def standbyEnviron : List (String × String) :=
  [("FAILOVER_MODE", "standby"), ("API_KEY", "k"),
   ("FLOATING_IP", "1.2.3.4"), ("FAILOVER_CHECK", "http://localhost/health")]

/-- C5 counterexample: with `mode='standby'` and no `FAILOVER_MAIN`,
startup does NOT raise — it reaches `watchdog.start()` and the loop,
and the first healthy non-owning cycle runs its watchdog kick, health
check and ownership query before raising `Missing 'FAILOVER_MAIN'`. -/
theorem standby_missing_main_is_not_a_startup_error :
    startup standbyEnviron = .started standbyCfgNoMain ∧
    mainProgram standbyEnviron [envHealthyNotOwner] =
      .ran [[.kickWatchdog, .selfCheck true, .ownershipQuery]]
        (.error .missingMain) := by
  have hstart : startup standbyEnviron = .started standbyCfgNoMain := rfl
  refine ⟨hstart, ?_⟩
  simp only [mainProgram, hstart]
  simp [runLoop, cycle, checkService, checkServiceT, _get, okOracle,
    envHealthyNotOwner, standbyCfgNoMain, mainCfg, hasFloatingIP,
    getDropletID, getMetadata, pyIndex, _item, pyEq, demoMeta, notOwnedResp]

/-- C5 amended: the missing-peer configuration is accepted at startup
(the run starts for any environment of this shape), and the
`Missing 'FAILOVER_MAIN'` exception is a per-cycle condition: it is
raised in a cycle exactly when the standby is healthy and does not own
the floating IP, after that cycle's watchdog kick, self health check
and ownership query, with no acquire call. -/
theorem standby_missing_main_raises_in_cycle
    (environ : List (String × String)) (ak fip cu : String)
    (cfg : Config) (env : CycleEnv) (st : PyVal)
    (hm : envGet environ "FAILOVER_MODE" = some "standby")
    (hak : envGet environ "API_KEY" = some ak)
    (hfip : envGet environ "FLOATING_IP" = some fip)
    (hcu : envGet environ "FAILOVER_CHECK" = some cu)
    (hmu : envGet environ "FAILOVER_MAIN" = Option.none)
    (hmode : cfg.mode = "standby") (hcfgmu : cfg.mainURLs = Option.none)
    (hself : checkService env.urlopen cfg.checkURLs Option.none = true)
    (hown : (hasFloatingIP st env.metaFetch env.ownResp).1 = .ok false) :
    startup environ =
      .started { mode := "standby", apiKey := ak, floatingIP := fip,
                 checkURLs := pySplit cu '|', mainURLs := Option.none,
                 mainHost := envGet environ "FAILOVER_MAIN_HOST" } ∧
    cycle cfg env st =
      ([.kickWatchdog, .selfCheck true, .ownershipQuery],
        (hasFloatingIP st env.metaFetch env.ownResp).2,
        .error .missingMain) := by
  constructor
  · simp [startup, hm, hak, hfip, hcu, hmu]
  · have hnotmain : ¬cfg.mode = "main" := by rw [hmode]; decide
    cases hfl : hasFloatingIP st env.metaFetch env.ownResp with
    | mk r st2 =>
      rw [hfl] at hown
      simp only at hown
      subst hown
      simp [cycle, hself, hmode, hnotmain, hfl, hcfgmu]

/-- C5 amended witness: the concrete standby environment and a concrete
healthy, non-owning cycle. -/
theorem standby_missing_main_raises_in_cycle_witness :
    startup standbyEnviron =
      .started { mode := "standby", apiKey := "k", floatingIP := "1.2.3.4",
                 checkURLs := pySplit "http://localhost/health" '|',
                 mainURLs := Option.none,
                 mainHost := envGet standbyEnviron "FAILOVER_MAIN_HOST" } ∧
    cycle standbyCfgNoMain envHealthyNotOwner PyVal.none =
      ([.kickWatchdog, .selfCheck true, .ownershipQuery],
        (hasFloatingIP PyVal.none envHealthyNotOwner.metaFetch
          envHealthyNotOwner.ownResp).2,
        .error .missingMain) := by
  apply standby_missing_main_raises_in_cycle standbyEnviron "k" "1.2.3.4"
    "http://localhost/health" standbyCfgNoMain envHealthyNotOwner PyVal.none
    rfl rfl rfl rfl rfl rfl rfl (by rfl)
  simp [hasFloatingIP, getDropletID, getMetadata, pyIndex, _item, pyEq,
    envHealthyNotOwner, demoMeta, notOwnedResp]

/-- C6 counterexample: a cycle in which the ownership query raises ends
the whole loop — with a second cycle scheduled, the run stops after the
first one and the error propagates; the next scheduled cycle never
runs. -/
theorem ownership_error_ends_loop_counterexample :
    runLoop mainCfg [envAuthErr, envHealthyNotOwner] PyVal.none =
      ([[.kickWatchdog, .selfCheck true, .ownershipQuery]], demoMeta,
        .error .urlopenFailed) ∧
    (runLoop mainCfg [envAuthErr, envHealthyNotOwner] PyVal.none).1.length
      = 1 := by
  constructor
  · simp [runLoop, cycle, checkService, checkServiceT, _get, okOracle,
      envAuthErr, envHealthyNotOwner, mainCfg, hasFloatingIP, getDropletID,
      getMetadata, pyIndex, _item, pyEq, demoMeta]
  · simp [runLoop, cycle, checkService, checkServiceT, _get, okOracle,
      envAuthErr, envHealthyNotOwner, mainCfg, hasFloatingIP, getDropletID,
      getMetadata, pyIndex, _item, pyEq, demoMeta]

/-- C6 amended: an `OwnershipClient` exception in a cycle is not caught
anywhere in the loop: the run of the loop ends immediately with that
error (the `finally` block stops the watchdog and the exception
propagates out of `main()`); the remaining scheduled cycles never
run — there is no logged no-op and no next-cycle retry. -/
theorem ownership_error_ends_loop (cfg : Config) (env : CycleEnv)
    (st : PyVal) (rest : List CycleEnv) (e : PyErr)
    (h : (cycle cfg env st).2.2 = .error e) :
    runLoop cfg (env :: rest) st =
      ([(cycle cfg env st).1], (cycle cfg env st).2.1, .error e) := by
  cases hcy : cycle cfg env st with
  | mk acts p =>
    cases p with
    | mk st2 out =>
      rw [hcy] at h
      simp only at h
      subst h
      simp [runLoop, hcy]

/-- C6 amended witness: with an authority-unreachable first cycle and a
healthy second cycle scheduled, the loop ends after the first. -/
theorem ownership_error_ends_loop_witness :
    runLoop mainCfg (envAuthErr :: [envHealthyNotOwner]) PyVal.none =
      ([(cycle mainCfg envAuthErr PyVal.none).1],
        (cycle mainCfg envAuthErr PyVal.none).2.1,
        .error .urlopenFailed) := by
  apply ownership_error_ends_loop mainCfg envAuthErr PyVal.none
    [envHealthyNotOwner] .urlopenFailed
  simp [cycle, checkService, checkServiceT, _get, okOracle, envAuthErr,
    envHealthyNotOwner, mainCfg, hasFloatingIP, getDropletID, getMetadata,
    pyIndex, _item, pyEq, demoMeta]

/-- C7 counterexample: a well-formed HTTP answer whose body is missing
`floating_ip.droplet.id` does not make `hasFloatingIP` raise — it
silently returns `False` (`dropletId == None` comparison). -/
theorem hasFloatingIP_silent_on_unexpected_shape :
    hasFloatingIP PyVal.none (.ok demoMeta) (.ok malformedResp) =
      (.ok false, demoMeta) := by
  simp [hasFloatingIP, getDropletID, getMetadata, pyIndex, _item, pyEq,
    demoMeta, malformedResp]

/-- C7 amended: `hasFloatingIP` propagates an exception whenever the
identity lookup fails or the authority request raises (backend
unreachable), but a response of unexpected shape in which
`_item(data, 'floating_ip', 'droplet', 'id')` yields the default `None`
makes it silently return `False` (the droplet id, an `int`, is compared
against `None`), not raise. -/
theorem hasFloatingIP_error_propagation (cached : PyVal)
    (metaFetch : Except PyErr PyVal) (resp : Except PyErr PyVal)
    (data : PyVal) (n : Int) (e : PyErr) :
    ((getDropletID cached metaFetch).1 = .error e →
      (hasFloatingIP cached metaFetch resp).1 = .error e) ∧
    ((getDropletID cached metaFetch).1 = .ok (.int n) →
      (hasFloatingIP cached metaFetch (.error e)).1 = .error e) ∧
    ((getDropletID cached metaFetch).1 = .ok (.int n) →
      _item data ["floating_ip", "droplet", "id"] = .ok .none →
      (hasFloatingIP cached metaFetch (.ok data)).1 = .ok false) := by
  cases hgd : getDropletID cached metaFetch with
  | mk r p =>
    cases p with
    | mk st2 req =>
      refine ⟨fun hr => ?_, fun hr => ?_, fun hr hitem => ?_⟩
      · simp only at hr
        subst hr
        simp [hasFloatingIP, hgd]
      · simp only at hr
        subst hr
        simp [hasFloatingIP, hgd]
      · simp only at hr
        subst hr
        simp [hasFloatingIP, hgd, hitem, pyEq]

/-- C7 amended witness: unreachable authority propagates; the
unexpected-shape body yields `.ok false`. -/
theorem hasFloatingIP_error_propagation_witness :
    (hasFloatingIP PyVal.none (.ok demoMeta)
      (.error .urlopenFailed)).1 = .error .urlopenFailed ∧
    (hasFloatingIP PyVal.none (.ok demoMeta)
      (.ok malformedResp)).1 = .ok false := by
  have h := hasFloatingIP_error_propagation PyVal.none (.ok demoMeta)
    (.ok malformedResp) malformedResp 123 .urlopenFailed
  have hgd : (getDropletID PyVal.none
      (Except.ok demoMeta)).1 = .ok (.int 123) := by
    simp [getDropletID, getMetadata, pyIndex, pyEq, demoMeta]
  exact ⟨h.2.1 hgd, h.2.2 hgd (by rfl)⟩

/-- C8 counterexample: under the schedule where the wait times out just
before `stop()` is called, the callback invocation starts after
`stop()` has returned — `stop()` does not prevent an in-flight trip, so
"after `stop()` returns, no new callback invocation starts under any
timing" is false. -/
theorem watchdog_fire_after_stop_counterexample :
    (wdRun 2 wdInit [.loopTest, .tick, .tick, .waitTimeout, .stop]).fires
      = 0 ∧
    (wdRun 2 wdInit [.loopTest, .tick, .tick, .waitTimeout, .stop]).stopFlag
      = true ∧
    (wdRun 2 wdInit
      [.loopTest, .tick, .tick, .waitTimeout, .stop, .invokeCallback]).fires
      = 1 ∧
    (wdRun 2 wdInit
      [.loopTest, .tick, .tick, .waitTimeout, .stop,
        .invokeCallback]).firedAfterStop = true := by
  decide

/-- C8 amended: (i) if every state of the run has seen a `kick()` less
than `timeout` ago, the callback never fires; (ii) with the configured
fatal callback (`sys.exit` ends the thread) the callback fires at most
once under every schedule, and it does fire on the undisturbed no-kick
schedule; (iii) after `stop()` returns with no trip already in flight
(the thread is not sitting between a timed-out wait and `callback()`,
and a pending wait has the `stop`-set `_kick` flag to consume), no
callback invocation ever starts — an already in-flight trip is the one
exception, per the counterexample. -/
theorem watchdog_timing_properties (T : Nat) :
    (∀ evs : List WDEvent,
      (∀ s' ∈ wdStates T wdInit evs, s'.sinceKick < T) →
      (wdRun T wdInit evs).fires = 0) ∧
    (∀ evs : List WDEvent, (wdRun T wdInit evs).fires ≤ 1) ∧
    (∀ (s : WDState) (evs : List WDEvent),
      s.stopFlag = true → s.pc ≠ .preFire →
      (∀ d, s.pc = .waiting d → s.kickFlag = true) →
      (wdRun T s evs).fires = s.fires) ∧
    (wdRun T wdInit
      ([.loopTest] ++ List.replicate T .tick ++
        [.waitTimeout, .invokeCallback])).fires = 1 := by
  refine ⟨?_, ?_, ?_, ?_⟩
  · intro evs hall
    exact (wdNoFireInv_run evs wdInit
      ⟨rfl, by simp [wdInit], by simp [wdInit]⟩ hall).1
  · intro evs
    exact (wdOnceInv_run evs wdInit ⟨by simp [wdInit], by simp [wdInit]⟩).1
  · intro s evs h1 h2 h3
    exact wdStopInv_run evs s ⟨h1, h2, h3⟩
  · rw [wdRun_append, wdRun_append]
    have h1 : wdRun T wdInit [.loopTest] =
        { wdInit with pc := .waiting T } := by
      simp [wdRun, wdStep, wdInit]
    rw [h1, wdRun_ticks]
    simp [wdRun, wdStep, wdInit]

/-- C8 amended witness: frequent kicks with `timeout = 2` keep the
callback silent; the at-most-once and post-stop clauses at concrete
schedules and a concrete cleanly-stopped state. -/
theorem watchdog_timing_properties_witness :
    (wdRun 2 wdInit [.loopTest, .kick, .tick, .waitReturnTrue, .loopTest,
      .kick, .tick, .waitReturnTrue]).fires = 0 ∧
    (wdRun 2 wdInit [.loopTest, .tick, .tick, .waitTimeout,
      .invokeCallback, .invokeCallback]).fires ≤ 1 ∧
    (wdRun 2
      { kickFlag := true, stopFlag := true, now := 5, sinceKick := 0,
        pc := .waiting 3, fires := 0, firedAfterStop := false }
      [.waitTimeout, .invokeCallback, .waitReturnTrue, .loopTest,
        .invokeCallback]).fires = 0 ∧
    (wdRun 2 wdInit
      ([.loopTest] ++ List.replicate 2 .tick ++
        [.waitTimeout, .invokeCallback])).fires = 1 := by
  have h := watchdog_timing_properties 2
  refine ⟨h.1 _ (by decide), h.2.1 _, ?_, h.2.2.2⟩
  exact h.2.2.1 _ _ rfl (by decide) (fun d hd => rfl)

/-- A `mode='main'` environment in which both `FAILOVER_CHECK` and the
`FAILOVER_MAIN` override are set. -/
def mainOverrideEnviron : List (String × String) :=
  [("FAILOVER_MODE", "main"), ("API_KEY", "k"), ("FLOATING_IP", "1.2.3.4"),
   ("FAILOVER_CHECK", "http://check/"),
   ("FAILOVER_MAIN", "http://m1/|http://m2/")]

/-- C9: at startup with `mode='main'`, if `FAILOVER_MAIN` is set the
configuration's self-check url set is the override's urls (split on
`'|'`), regardless of `FAILOVER_CHECK`; only when the override is
absent does `FAILOVER_CHECK` supply the self-check urls. -/
theorem main_override_self_check_urls (environ : List (String × String))
    (ak fip mu cu : String)
    (hm : envGet environ "FAILOVER_MODE" = some "main")
    (hak : envGet environ "API_KEY" = some ak)
    (hfip : envGet environ "FLOATING_IP" = some fip) :
    (envGet environ "FAILOVER_MAIN" = some mu →
      startup environ =
        .started { mode := "main", apiKey := ak, floatingIP := fip,
                   checkURLs := pySplit mu '|',
                   mainURLs := some (pySplit mu '|'),
                   mainHost := envGet environ "FAILOVER_MAIN_HOST" }) ∧
    (envGet environ "FAILOVER_MAIN" = Option.none →
      envGet environ "FAILOVER_CHECK" = some cu →
      startup environ =
        .started { mode := "main", apiKey := ak, floatingIP := fip,
                   checkURLs := pySplit cu '|', mainURLs := Option.none,
                   mainHost := envGet environ "FAILOVER_MAIN_HOST" }) := by
  constructor
  · intro hmu
    simp [startup, hm, hak, hfip, hmu]
  · intro hmu hcu
    simp [startup, hm, hak, hfip, hmu, hcu]

/-- C9 witness: with both variables set, the override wins and both its
urls become the self-check set; `FAILOVER_CHECK`'s value is unused. -/
theorem main_override_self_check_urls_witness :
    startup mainOverrideEnviron =
      .started { mode := "main", apiKey := "k", floatingIP := "1.2.3.4",
                 checkURLs := ["http://m1/", "http://m2/"],
                 mainURLs := some ["http://m1/", "http://m2/"],
                 mainHost := Option.none } :=
  (main_override_self_check_urls mainOverrideEnviron "k" "1.2.3.4"
    "http://m1/|http://m2/" "http://check/" rfl rfl rfl).1 rfl

/-- The sequence of `getMetadata()` calls of a whole run, threading the
`_metadata` global: each element records the call's outcome and whether
it performed a metadata network request. -/
def getMetadataCalls (st : PyVal) :
    List (Except PyErr PyVal) → List (Except PyErr PyVal × Bool) × PyVal
  | [] => ([], st)
  | f :: fs =>
    match getMetadata st f with
    | (r, st2, req) =>
      match getMetadataCalls st2 fs with
      | (rs, st3) => ((r, req) :: rs, st3)

/-- C10 counterexample: a first `getMetadata` fetch that succeeds with
the JSON value `null` assigns `None` to the global, so the next call
fails the `_metadata != None` test, performs a further metadata network
request, and can itself fail — refuting "after the first successful
getMetadata fetch ... no further metadata network request" and
"an identity-lookup failure can only occur before the first success".
-/
theorem metadata_null_fetch_refetches :
    (getMetadata PyVal.none (.ok PyVal.none)).1 = .ok PyVal.none ∧
    (getMetadata PyVal.none (.ok PyVal.none)).2.1 = PyVal.none ∧
    (getDropletID ((getMetadata PyVal.none (.ok PyVal.none)).2.1)
      (.ok demoMeta)).2.2 = true ∧
    (getDropletID ((getMetadata PyVal.none (.ok PyVal.none)).2.1)
      (.error .urlopenFailed)).1 = .error .urlopenFailed := by
  refine ⟨?_, ?_, ?_, ?_⟩ <;>
    simp [getMetadata, getDropletID, pyIndex, pyEq, demoMeta]

/-- C10 amended: once `_metadata` holds a value other than `None`,
every later `getMetadata()` call of the run returns it with no network
request and the global never changes; a first fetch stores whatever
value it yields (including `None`, which does not populate the cache);
a failed first fetch leaves the global `None`; and `getDropletID` on a
cached non-`None` metadata value returns its `droplet_id` with no
request.  So a metadata network request — and with it an
identity-lookup failure — can only occur before the first fetch that
succeeds with a non-`None` value. -/
theorem metadata_cached_after_first_success (m v dv : PyVal) (e : PyErr)
    (fs : List (Except PyErr PyVal)) (fetch : Except PyErr PyVal)
    (hm : pyEq m PyVal.none = false)
    (hid : pyIndex m "droplet_id" = .ok dv) :
    getMetadataCalls m fs = (fs.map fun _ => (.ok m, false), m) ∧
    getMetadata PyVal.none (.ok v) = (.ok v, v, true) ∧
    getMetadata PyVal.none (.error e) = (.error e, PyVal.none, true) ∧
    getDropletID m fetch = (.ok dv, m, false) := by
  refine ⟨?_, by simp [getMetadata, pyEq], by simp [getMetadata, pyEq], ?_⟩
  · induction fs with
    | nil => rfl
    | cons f fs ih => simp [getMetadataCalls, getMetadata, hm, ih]
  · simp [getDropletID, getMetadata, hm, hid]

/-- C10 amended witness: with the global holding a real metadata dict,
two further calls (one of which would have failed had it fetched) both
return the cached value with no request, and `getDropletID` yields the
cached droplet id. -/
theorem metadata_cached_after_first_success_witness :
    getMetadataCalls demoMeta [.error .urlopenFailed, .ok (.dict [])] =
      ([(.ok demoMeta, false), (.ok demoMeta, false)], demoMeta) ∧
    getMetadata PyVal.none (.ok demoMeta) =
      (.ok demoMeta, demoMeta, true) ∧
    getMetadata PyVal.none (.error .urlopenFailed) =
      (.error .urlopenFailed, PyVal.none, true) ∧
    getDropletID demoMeta (.error .urlopenFailed) =
      (.ok (.int 123), demoMeta, false) :=
  metadata_cached_after_first_success demoMeta demoMeta (.int 123)
    .urlopenFailed [.error .urlopenFailed, .ok (.dict [])]
    (.error .urlopenFailed) (by simp [pyEq, demoMeta]) rfl

end Failover
